import Mathlib

/-!
# Verification of the EnergyCalc discovery/matching engine

A shallow embedding of `custom_components/energycalc/discovery.py`
(class `PowerDeviceDiscovery`): entity classification, grouping by
device, energy-sibling matching (device co-membership and name-pattern
fallback), and plan building with de-duplication against already
provisioned unique ids.

Registry entries, state objects and device entries are modelled as
records carrying exactly the fields the discovery code reads.  Python
string operations (`str.replace`, `str.title`, truthiness of `None`
and `""`, `x or y`, case-insensitive substring test) are modelled
explicitly and executably.
-/

namespace EnergyCalc

/-! ## Python string primitives -/

/-- Python `str.replace` on character lists: replace every
left-to-right non-overlapping occurrence of `old` by `new`.  `fuel`
bounds the recursion; it is instantiated with the length of the
subject string, which suffices because every step consumes at least
one character. -/
def replaceAllFuel (old new : List Char) : Nat → List Char → List Char
  | _, [] => []
  | 0, s => s
  | fuel + 1, c :: rest =>
    if old ≠ [] ∧ old.isPrefixOf (c :: rest) then
      new ++ replaceAllFuel old new fuel ((c :: rest).drop old.length)
    else
      c :: replaceAllFuel old new fuel rest

/-- Python `s.replace(old, new)` for non-empty `old` (every call site
in the discovery code passes a non-empty pattern). -/
def pyReplace (s old new : String) : String :=
  String.mk (replaceAllFuel old.data new.data s.data.length s.data)

/-- Helper for `pyTitle`: `prevAlpha` records whether the previous
character was a letter (a "cased" character in Python's terms; all
entity ids here are ASCII). -/
def titleAux : Bool → List Char → List Char
  | _, [] => []
  | prevAlpha, c :: rest =>
    if c.isAlpha then
      (if prevAlpha then c.toLower else c.toUpper) :: titleAux true rest
    else
      c :: titleAux false rest

/-- Python `str.title` restricted to ASCII input: a letter not
preceded by a letter is uppercased, a letter preceded by a letter is
lowercased, other characters are kept. -/
def pyTitle (s : String) : String :=
  String.mk (titleAux false s.data)

/-- Python truthiness of an optional string: `None` and `""` are
falsy, everything else is truthy. -/
def isTruthy : Option String → Bool
  | none => false
  | some s => !s.isEmpty

/-- Python `a or b` on optional strings: yields `a` when `a` is
truthy, otherwise `b`. -/
def pyOr (a b : Option String) : Option String :=
  if isTruthy a then a else b

/-- Python `needle in hay` on character lists (substring test). -/
def isSubstring (needle : List Char) : List Char → Bool
  | [] => needle.isEmpty
  | c :: rest => needle.isPrefixOf (c :: rest) || isSubstring needle rest

/-- `needle.lower() in hay.lower()` as used when combining device and
entity names. -/
def containsCI (hay needle : String) : Bool :=
  isSubstring (needle.data.map Char.toLower) (hay.data.map Char.toLower)

/-! ## Data model

The records carry exactly the fields the discovery code reads from
the host registries and states. -/

/-- An entity-registry entry (`RegistryEntry`). -/
structure RegEntry where
  entity_id : String
  domain : String
  disabled : Bool
  device_id : Option String
  area_id : Option String
  name : Option String
  original_name : Option String
  unique_id : String
deriving DecidableEq, Repr

/-- A state object: the two attributes the discovery code reads. -/
structure StateObj where
  entity_id : String
  unit_of_measurement : Option String
  device_class : Option String
deriving DecidableEq, Repr

/-- A device-registry entry: the fields the discovery code reads. -/
structure DeviceEntry where
  id : String
  name_by_user : Option String
  name : Option String
  manufacturer : Option String
  model : Option String
deriving DecidableEq, Repr

/-- The read-only input of one discovery pass: the entity registry,
the loaded states, the device registry, and the exclusion list. -/
structure Snapshot where
  entities : List RegEntry
  states : List StateObj
  devices : List DeviceEntry
  exclude : List String
deriving DecidableEq, Repr

/-- `hass.states.get` / the pre-loaded state dictionary. -/
def getState (snap : Snapshot) (eid : String) : Option StateObj :=
  snap.states.find? (fun st => decide (st.entity_id = eid))

/-- `entity_registry.async_get`. -/
def registryGet (snap : Snapshot) (eid : String) : Option RegEntry :=
  snap.entities.find? (fun e => decide (e.entity_id = eid))

/-- `er.async_entries_for_device`. -/
def entriesForDevice (snap : Snapshot) (did : String) : List RegEntry :=
  snap.entities.filter (fun e => decide (e.device_id = some did))

/-- `device_registry.async_get`. -/
def deviceLookup (snap : Snapshot) (did : String) : Option DeviceEntry :=
  snap.devices.find? (fun de => decide (de.id = did))

/-! ## Classifier

`const.py` defines `POWER_WATT = "W"`, `ENERGY_KILO_WATT_HOUR = "kWh"`,
`ENERGY_WATT_HOUR = "Wh"`; the host constants `UnitOfPower.WATT`,
`UnitOfEnergy.KILO_WATT_HOUR`, `UnitOfEnergy.WATT_HOUR` are the same
strings.  The code tests membership of the unit in the corresponding
literal list. -/

def POWER_WATT : String := "W"

def ENERGY_KILO_WATT_HOUR : String := "kWh"

def ENERGY_WATT_HOUR : String := "Wh"

/-- `unit in [POWER_WATT, UnitOfPower.WATT]` (line 136). -/
def isPowerUnit : Option String → Bool
  | none => false
  | some u => u ∈ [POWER_WATT, "W"]

/-- `unit in [ENERGY_KILO_WATT_HOUR, ENERGY_WATT_HOUR,
UnitOfEnergy.KILO_WATT_HOUR, UnitOfEnergy.WATT_HOUR]`
(lines 179 and 213). -/
def isEnergyUnit : Option String → Bool
  | none => false
  | some u => u ∈ [ENERGY_KILO_WATT_HOUR, ENERGY_WATT_HOUR, "kWh", "Wh"]

/-- The power test of `_get_power_entities` (lines 136-137). -/
def powerCond (st : StateObj) : Bool :=
  isPowerUnit st.unit_of_measurement &&
    (decide (st.device_class = some "power") || decide (st.device_class = none))

/-- The energy test of `_has_energy_entity` (lines 179-180). -/
def energyCond (st : StateObj) : Bool :=
  isEnergyUnit st.unit_of_measurement &&
    (decide (st.device_class = some "energy") || decide (st.device_class = none))

/-- The classification of one (unit, device_class) pair. -/
inductive EntityClass where
  | Power
  | Energy
  | Other
deriving DecidableEq, Repr

/-- The classifier: the power test of `_get_power_entities`, then the
energy test of `_has_energy_entity`, else `Other`. -/
def classify (unit device_class : Option String) : EntityClass :=
  if powerCond ⟨"", unit, device_class⟩ then .Power
  else if energyCond ⟨"", unit, device_class⟩ then .Energy
  else .Other

/-! ## Matcher -/

/-- `power_entity.entity_id.replace("sensor.", "")`. -/
def localName (e : RegEntry) : String :=
  pyReplace e.entity_id "sensor." ""

/-- The candidate sibling names of `_has_energy_entity_by_name`
(lines 192-199), in source order. -/
def energyPatterns (power_name : String) : List String :=
  [ pyReplace power_name "_power" "_energy"
  , pyReplace power_name "_power" "_total_energy"
  , pyReplace power_name "power" "energy"
  , pyReplace power_name "power" "total_energy"
  , power_name ++ "_energy"
  , power_name ++ "_total_energy" ]

/-- The per-candidate test of `_has_energy_entity_by_name`
(lines 206-214): registered, present, unit in the energy-unit list.
The candidate's device_class is not consulted. -/
def namePatternHit (snap : Snapshot) (pattern : String) : Bool :=
  match registryGet snap ("sensor." ++ pattern) with
  | none => false
  | some _ =>
    match getState snap ("sensor." ++ pattern) with
    | none => false
    | some st => isEnergyUnit st.unit_of_measurement

/-- `_has_energy_entity_by_name`. -/
def hasEnergyEntityByName (snap : Snapshot) (power_entity : RegEntry) : Bool :=
  (energyPatterns (localName power_entity)).any (namePatternHit snap)

/-- The per-co-member test of `_has_energy_entity` (lines 168-181):
enabled sensor-domain entry whose present state passes the energy
test. -/
def deviceEnergyCheck (snap : Snapshot) (e : RegEntry) : Bool :=
  !e.disabled && decide (e.domain = "sensor") &&
    match getState snap e.entity_id with
    | none => false
    | some st => energyCond st

/-- `_has_energy_entity`: with a falsy (`None` or empty) device id the
name-pattern fallback is used; otherwise only the device co-members
are examined. -/
def hasEnergyEntity (snap : Snapshot) (power_entity : RegEntry) : Bool :=
  if !(isTruthy power_entity.device_id) then
    hasEnergyEntityByName snap power_entity
  else
    (entriesForDevice snap (power_entity.device_id.getD "")).any
      (deviceEnergyCheck snap)

/-! ## Power-entity selection -/

/-- `_get_power_entities`: sensor-domain registry entries, not
disabled, not excluded, with a present state passing the power
test. -/
def getPowerEntities (snap : Snapshot) : List RegEntry :=
  (snap.entities.filter (fun e => decide (e.domain = "sensor"))).filter
    (fun e =>
      !(e.disabled || snap.exclude.contains e.entity_id) &&
        match getState snap e.entity_id with
        | none => false
        | some st => powerCond st)

/-- The entities the pass keeps: power entities without an energy
match (lines 55-60). -/
def needingEnergy (snap : Snapshot) : List RegEntry :=
  (getPowerEntities snap).filter (fun e => !hasEnergyEntity snap e)

/-! ## Grouper -/

/-- One step of the dictionary build of `_group_entities_by_device`:
append `e` to the bucket keyed `k`, creating the bucket at the end
when the key is new (Python dict insertion order). -/
def insertGroup (k : Option String) (e : RegEntry) :
    List (Option String × List RegEntry) → List (Option String × List RegEntry)
  | [] => [(k, [e])]
  | (k', l) :: rest =>
    if k' = k then (k', l ++ [e]) :: rest else (k', l) :: insertGroup k e rest

/-- `_group_entities_by_device`: a dictionary from `device_id`
(`None` included) to the entities carrying it, in scan order. -/
def groupByDevice (es : List RegEntry) : List (Option String × List RegEntry) :=
  es.foldl (fun gs e => insertGroup e.device_id e gs) []

/-- The device groups of one pass (line 63). -/
def deviceGroups (snap : Snapshot) : List (Option String × List RegEntry) :=
  groupByDevice (needingEnergy snap)

/-! ## Plan builder -/

/-- The discovery data emitted for one flow: the union of the fields
set by `_init_device_discovery` (multi-entity format, field
`power_entity_ids` populated) and `_init_entity_discovery` (legacy
format, field `power_entity_id` populated). -/
structure Plan where
  power_entity_ids : Option (List String)
  power_entity_id : Option String
  unique_id : Option String
  device_id : Option String
  area_id : Option String
  device_name : String
  manufacturer : Option String
  model : Option String
deriving DecidableEq, Repr

/-- `entity_id.replace("sensor.", "").replace("_", " ").title()`. -/
def titleizeEntityId (eid : String) : String :=
  pyTitle (pyReplace (pyReplace eid "sensor." "") "_" " ")

/-- The display-name resolution of `_init_device_discovery`
(lines 270-285): the device's user-set name or name when truthy,
else the primary entity's name or original name, else the title-cased
entity id. -/
def resolveDeviceGroupName (dEntry : Option DeviceEntry) (primary : RegEntry) : String :=
  match dEntry with
  | some de =>
    let device_name := pyOr de.name_by_user de.name
    if isTruthy device_name then device_name.getD ""
    else
      (pyOr (pyOr primary.name primary.original_name)
        (some (titleizeEntityId primary.entity_id))).getD ""
  | none =>
    (pyOr (pyOr primary.name primary.original_name)
      (some (titleizeEntityId primary.entity_id))).getD ""

/-- The `expected_unique_id` of `_init_device_discovery`
(lines 244, 294). -/
def deviceGroupKey (primary : RegEntry) : String :=
  if isTruthy primary.device_id then
    "energycalc_device_" ++ primary.device_id.getD ""
  else
    "energycalc_no_device_" ++ primary.entity_id

/-- The multi-entity plan `_init_device_discovery` emits when not
suppressed by de-duplication. -/
def mkDevicePlan (snap : Snapshot) (primary : RegEntry) (rest : List RegEntry) : Plan :=
  let dEntry :=
    if isTruthy primary.device_id then
      deviceLookup snap (primary.device_id.getD "")
    else none
  let nameTruthy :=
    match dEntry with
    | some de => isTruthy (pyOr de.name_by_user de.name)
    | none => false
  { power_entity_ids := some ((primary :: rest).map (·.entity_id))
  , power_entity_id := none
  , unique_id := some (deviceGroupKey primary)
  , device_id := primary.device_id
  , area_id := primary.area_id
  , device_name := resolveDeviceGroupName dEntry primary
  , manufacturer :=
      if nameTruthy then (dEntry.map (·.manufacturer)).join else none
  , model :=
      if nameTruthy then (dEntry.map (·.model)).join else none }

/-- `_init_device_discovery`: skip when a config entry with the
expected unique id exists, else emit one multi-entity plan for the
whole group.  `prov` is the set of unique ids of existing config
entries. -/
def initDeviceDiscovery (snap : Snapshot) (prov : List String)
    (power_entities : List RegEntry) : List Plan :=
  match power_entities with
  | [] => []
  | primary :: rest =>
    if deviceGroupKey primary ∈ prov then []
    else [mkDevicePlan snap primary rest]

/-- The dedup key of `_init_entity_discovery` (line 317). -/
def entityKey (power_entity : RegEntry) : String :=
  "energycalc_" ++ power_entity.entity_id

/-- The display-name resolution of `_init_entity_discovery`
(lines 339-368): combine entity and device names for multi-outlet
devices, falling back to the entity name, the device name, then the
title-cased entity id. -/
def resolveEntityName (dEntry : Option DeviceEntry) (power_entity : RegEntry) : String :=
  let entity_name := pyOr power_entity.name power_entity.original_name
  let device_name : Option String :=
    match dEntry with
    | some de => pyOr de.name_by_user de.name
    | none => none
  if isTruthy entity_name && isTruthy device_name &&
      !decide (entity_name = device_name) then
    if containsCI (entity_name.getD "") (device_name.getD "") then
      entity_name.getD ""
    else
      device_name.getD "" ++ ": " ++ entity_name.getD ""
  else if isTruthy entity_name then entity_name.getD ""
  else if isTruthy device_name then device_name.getD ""
  else titleizeEntityId power_entity.entity_id

/-- The legacy-format plan `_init_entity_discovery` emits when not
suppressed by de-duplication. -/
def mkEntityPlan (snap : Snapshot) (power_entity : RegEntry) : Plan :=
  let dEntry :=
    if isTruthy power_entity.device_id then
      deviceLookup snap (power_entity.device_id.getD "")
    else none
  { power_entity_ids := none
  , power_entity_id := some power_entity.entity_id
  , unique_id := some power_entity.unique_id
  , device_id := power_entity.device_id
  , area_id := power_entity.area_id
  , device_name := resolveEntityName dEntry power_entity
  , manufacturer := (dEntry.map (·.manufacturer)).join
  , model := (dEntry.map (·.model)).join }

/-- `_init_entity_discovery`: skip when a config entry with unique id
`energycalc_{entity_id}` exists, else emit one legacy-format plan. -/
def initEntityDiscovery (snap : Snapshot) (prov : List String)
    (power_entity : RegEntry) : List Plan :=
  if entityKey power_entity ∈ prov then []
  else [mkEntityPlan snap power_entity]

/-- The per-group dispatch of `async_discover_and_create_sensors`
(lines 68-77): the `None` group is processed one entity at a time,
every other group as a whole. -/
def plansForGroup (snap : Snapshot) (prov : List String) :
    Option String × List RegEntry → List Plan
  | (none, es) => es.flatMap (initEntityDiscovery snap prov)
  | (some _, es) => initDeviceDiscovery snap prov es

/-- One full discovery pass as a pure function: select, match, group,
and emit plans, de-duplicating against `prov`. -/
def buildPlans (snap : Snapshot) (prov : List String) : List Plan :=
  (deviceGroups snap).flatMap (plansForGroup snap prov)

/-- The unique id the config flow assigns to the entry created from a
plan (`config_flow.py` lines 40-49): the plan's own unique id in the
multi-entity format, else `energycalc_{power_entity_id}`. -/
def configEntryUniqueId (p : Plan) : String :=
  match p.power_entity_ids with
  | some _ => p.unique_id.getD ""
  | none => "energycalc_" ++ p.power_entity_id.getD ""

/-- The power entity ids a plan refers to, in either format. -/
def planPowerIds (p : Plan) : List String :=
  match p.power_entity_ids with
  | some l => l
  | none =>
    match p.power_entity_id with
    | some i => [i]
    | none => []

/-! ## Derived notions used by the statements -/

/-- The concatenation of all buckets of a group dictionary. -/
def joinSnd : List (Option String × List RegEntry) → List RegEntry
  | [] => []
  | (_, l) :: rest => l ++ joinSnd rest

/-- The keys of a group dictionary. -/
def keysOf (gs : List (Option String × List RegEntry)) : List (Option String) :=
  gs.map Prod.fst

/-- Modelled from the spec's words, for comparison with the code's
name resolution: the first non-empty (truthy) candidate wins, else
the default. -/
def firstNonEmpty (cands : List (Option String)) (dflt : String) : String :=
  match cands with
  | [] => dflt
  | c :: rest => if isTruthy c then c.getD "" else firstNonEmpty rest dflt

/-! ## Concrete scenario data -/

/-- A device-less power entity used in concrete scenarios. -/
def nullEntityA : RegEntry :=
  ⟨"sensor.a_power", "sensor", false, none, none, none, none, "ua"⟩

/-- A second device-less power entity. -/
def nullEntityB : RegEntry :=
  ⟨"sensor.b_power", "sensor", false, none, none, none, none, "ub"⟩

/-- A power entity attached to device `dev1`, for witnesses. -/
def devEntityA : RegEntry :=
  ⟨"sensor.strip_outlet_1_power", "sensor", false, some "dev1", none, none, none, "u1"⟩

/-- A second power entity attached to device `dev1`. -/
def devEntityB : RegEntry :=
  ⟨"sensor.strip_outlet_2_power", "sensor", false, some "dev1", none, none, none, "u2"⟩

/-- An empty snapshot, for witnesses. -/
def emptySnap : Snapshot := ⟨[], [], [], []⟩

/-- A power entity attached to `dev1` whose device has no energy
co-member, while a name-pattern energy sibling exists. -/
def ppOnDevice : RegEntry :=
  ⟨"sensor.plug_power", "sensor", false, some "dev1", none, none, none, "v1"⟩

/-- The name-pattern energy sibling of `ppOnDevice` (not attached to
`dev1`). -/
def plugEnergySibling : RegEntry :=
  ⟨"sensor.plug_energy", "sensor", false, none, none, none, none, "v2"⟩

/-- The C2 scenario snapshot. -/
def snapDeviceNoFallback : Snapshot :=
  ⟨[ppOnDevice, plugEnergySibling],
   [⟨"sensor.plug_power", some "W", none⟩,
    ⟨"sensor.plug_energy", some "kWh", none⟩],
   [], []⟩

/-- Power entity `sensor.plug_power` with no device id. -/
def plugPowerNoDev : RegEntry :=
  ⟨"sensor.plug_power", "sensor", false, none, none, none, none, "up"⟩

/-- Registered entity `sensor.plug_energy`. -/
def plugEnergyReg : RegEntry :=
  ⟨"sensor.plug_energy", "sensor", false, none, none, none, none, "ue"⟩

/-- The C5 scenario snapshot: `sensor.plug_energy` has a present
state with unit `"kWh"`. -/
def plugSnap : Snapshot :=
  ⟨[plugPowerNoDev, plugEnergyReg],
   [⟨"sensor.plug_power", some "W", none⟩,
    ⟨"sensor.plug_energy", some "kWh", none⟩],
   [], []⟩

/-- The C6 scenario snapshot: the sole candidate sibling
`sensor.plug_energy` has unit `"kWh"` but an explicit device_class
`"humidity"`, so it classifies as Other. -/
def humidEnergySnap : Snapshot :=
  ⟨[plugPowerNoDev, plugEnergyReg],
   [⟨"sensor.plug_power", some "W", none⟩,
    ⟨"sensor.plug_energy", some "kWh", some "humidity"⟩],
   [], []⟩

/-- The C7/C8 scenario snapshot: two enabled watt sensors on `dev1`,
no energy entity anywhere. -/
def stripSnap : Snapshot :=
  ⟨[devEntityA, devEntityB],
   [⟨"sensor.strip_outlet_1_power", some "W", some "power"⟩,
    ⟨"sensor.strip_outlet_2_power", some "W", some "power"⟩],
   [⟨"dev1", none, some "Strip", some "Acme", some "S1"⟩], []⟩

/-! ## Helper lemmas -/

theorem configEntryUniqueId_mkEntityPlan (snap : Snapshot) (e : RegEntry) :
    configEntryUniqueId (mkEntityPlan snap e) = entityKey e := rfl

theorem configEntryUniqueId_mkDevicePlan (snap : Snapshot) (primary : RegEntry)
    (rest : List RegEntry) :
    configEntryUniqueId (mkDevicePlan snap primary rest) = deviceGroupKey primary := rfl

theorem planPowerIds_mkEntityPlan (snap : Snapshot) (e : RegEntry) :
    planPowerIds (mkEntityPlan snap e) = [e.entity_id] := rfl

theorem planPowerIds_mkDevicePlan (snap : Snapshot) (primary : RegEntry)
    (rest : List RegEntry) :
    planPowerIds (mkDevicePlan snap primary rest) =
      (primary :: rest).map (·.entity_id) := rfl

/-- Membership in the output of one pass, reduced to the per-group
plans. -/
theorem mem_buildPlans {snap : Snapshot} {prov : List String} {p : Plan} :
    p ∈ buildPlans snap prov ↔
      ∃ g, g ∈ deviceGroups snap ∧ p ∈ plansForGroup snap prov g := by
  simp [buildPlans, List.mem_flatMap]

theorem mem_initEntityDiscovery {snap : Snapshot} {prov : List String}
    {e : RegEntry} {p : Plan} (h : p ∈ initEntityDiscovery snap prov e) :
    p = mkEntityPlan snap e := by
  unfold initEntityDiscovery at h
  split at h
  · simp at h
  · simpa using h

theorem mem_initDeviceDiscovery {snap : Snapshot} {prov : List String}
    {es : List RegEntry} {p : Plan} (h : p ∈ initDeviceDiscovery snap prov es) :
    ∃ primary rest, es = primary :: rest ∧ p = mkDevicePlan snap primary rest := by
  match es, h with
  | [], h => simp [initDeviceDiscovery] at h
  | primary :: rest, h =>
    refine ⟨primary, rest, rfl, ?_⟩
    unfold initDeviceDiscovery at h
    by_cases hk : deviceGroupKey primary ∈ prov
    · simp [hk] at h
    · simp [hk] at h
      exact h

/-! ## C1: idempotence of the pass -/

/-- The pass-level idempotence equation behind C1. -/
theorem discovery_idempotent_aux (snap : Snapshot) (prov : List String) :
    buildPlans snap (prov ++ (buildPlans snap prov).map configEntryUniqueId) = [] := by
  rw [buildPlans, List.flatMap_eq_nil_iff]
  rintro ⟨k, es⟩ hg
  cases k with
  | none =>
    show es.flatMap (initEntityDiscovery snap _) = []
    rw [List.flatMap_eq_nil_iff]
    intro e he
    rw [initEntityDiscovery, if_pos]
    by_cases hk : entityKey e ∈ prov
    · exact List.mem_append_left _ hk
    · refine List.mem_append_right _ ?_
      rw [← configEntryUniqueId_mkEntityPlan snap e]
      refine List.mem_map_of_mem _ ?_
      rw [mem_buildPlans]
      refine ⟨(none, es), hg, ?_⟩
      show mkEntityPlan snap e ∈ es.flatMap (initEntityDiscovery snap prov)
      refine List.mem_flatMap_of_mem he ?_
      rw [initEntityDiscovery, if_neg hk]
      exact List.mem_singleton.mpr rfl
  | some d =>
    cases es with
    | nil => rfl
    | cons primary rest =>
      show initDeviceDiscovery snap _ (primary :: rest) = []
      rw [initDeviceDiscovery, if_pos]
      by_cases hk : deviceGroupKey primary ∈ prov
      · exact List.mem_append_left _ hk
      · refine List.mem_append_right _ ?_
        rw [← configEntryUniqueId_mkDevicePlan snap primary rest]
        refine List.mem_map_of_mem _ ?_
        rw [mem_buildPlans]
        refine ⟨(some d, primary :: rest), hg, ?_⟩
        show mkDevicePlan snap primary rest ∈
          initDeviceDiscovery snap prov (primary :: rest)
        rw [initDeviceDiscovery, if_neg hk]
        exact List.mem_singleton.mpr rfl

/-- C1.  Idempotence of discovery: over an unchanged snapshot, a
second pass whose already-provisioned unique-id set additionally
contains the unique ids the config flow derives from the first pass's
plans (`energycalc_device_{device_id}` for device groups,
`energycalc_{entity_id}` for device-less entities) emits no plan; and
per unit of work, a device group or device-less entity whose dedup
key is already in the provisioned set emits no plan. -/
theorem discovery_idempotent :
    (∀ (snap : Snapshot) (prov : List String),
      buildPlans snap (prov ++ (buildPlans snap prov).map configEntryUniqueId) = []) ∧
    (∀ (snap : Snapshot) (prov : List String) (primary : RegEntry)
      (rest : List RegEntry), deviceGroupKey primary ∈ prov →
        initDeviceDiscovery snap prov (primary :: rest) = []) ∧
    (∀ (snap : Snapshot) (prov : List String) (e : RegEntry),
      entityKey e ∈ prov → initEntityDiscovery snap prov e = []) := by
  refine ⟨discovery_idempotent_aux, ?_, ?_⟩
  · intro snap prov primary rest hk
    rw [initDeviceDiscovery, if_pos hk]
  · intro snap prov e hk
    rw [initEntityDiscovery, if_pos hk]

theorem discovery_idempotent_witness :
    initDeviceDiscovery emptySnap ["energycalc_device_dev1"] [devEntityA] = [] ∧
    initEntityDiscovery emptySnap ["energycalc_sensor.a_power"] nullEntityA = [] :=
  ⟨discovery_idempotent.2.1 emptySnap ["energycalc_device_dev1"] devEntityA [] (by decide),
   discovery_idempotent.2.2 emptySnap ["energycalc_sensor.a_power"] nullEntityA (by decide)⟩

/-! ## Grouper lemmas -/

theorem joinSnd_insertGroup (k : Option String) (e : RegEntry)
    (gs : List (Option String × List RegEntry)) :
    (joinSnd (insertGroup k e gs)).Perm (joinSnd gs ++ [e]) := by
  induction gs with
  | nil => simp [insertGroup, joinSnd]
  | cons hd tl ih =>
    obtain ⟨k', l⟩ := hd
    by_cases h : k' = k
    · simp only [insertGroup, if_pos h, joinSnd]
      rw [List.append_assoc, List.append_assoc]
      exact List.Perm.append_left l List.perm_append_comm
    · simp only [insertGroup, if_neg h, joinSnd]
      rw [List.append_assoc]
      exact List.Perm.append_left l ih

theorem joinSnd_foldl (es : List RegEntry) :
    ∀ gs, (joinSnd (es.foldl (fun gs e => insertGroup e.device_id e gs) gs)).Perm
      (joinSnd gs ++ es) := by
  induction es with
  | nil => intro gs; simp
  | cons e tl ih =>
    intro gs
    rw [List.foldl_cons]
    refine (ih _).trans ?_
    have h := (joinSnd_insertGroup e.device_id e gs).append_right tl
    refine h.trans ?_
    rw [List.append_assoc]
    simp

/-- Every input entity lands in the dictionary, and nothing else
does: the buckets concatenate to a permutation of the input. -/
theorem joinSnd_groupByDevice (es : List RegEntry) :
    (joinSnd (groupByDevice es)).Perm es := by
  simpa [joinSnd] using joinSnd_foldl es []

theorem insertGroup_purity {k : Option String} {e : RegEntry}
    {gs : List (Option String × List RegEntry)} (he : e.device_id = k)
    (h : ∀ k' l', (k', l') ∈ gs → ∀ x ∈ l', x.device_id = k') :
    ∀ k' l', (k', l') ∈ insertGroup k e gs → ∀ x ∈ l', x.device_id = k' := by
  induction gs with
  | nil =>
    intro k' l' hm x hx
    simp only [insertGroup, List.mem_singleton, Prod.mk.injEq] at hm
    obtain ⟨hk, hl⟩ := hm
    subst hk; subst hl
    simp only [List.mem_singleton] at hx
    subst hx
    exact he
  | cons hd tl ih =>
    obtain ⟨k0, l0⟩ := hd
    intro k' l' hm x hx
    by_cases h0 : k0 = k
    · simp only [insertGroup, if_pos h0, List.mem_cons, Prod.mk.injEq] at hm
      rcases hm with ⟨hk, hl⟩ | hm
      · subst hk; subst hl
        rcases List.mem_append.mp hx with hx | hx
        · exact h k' l0 (List.mem_cons_self _ _) x hx
        · simp only [List.mem_singleton] at hx
          subst hx
          rw [he, ← h0]
      · exact h k' l' (List.mem_cons_of_mem _ hm) x hx
    · simp only [insertGroup, if_neg h0, List.mem_cons, Prod.mk.injEq] at hm
      rcases hm with ⟨hk, hl⟩ | hm
      · subst hk; subst hl
        exact h k' l' (List.mem_cons_self _ _) x hx
      · exact ih (fun k1 l1 hm1 => h k1 l1 (List.mem_cons_of_mem _ hm1)) k' l' hm x hx

/-- Bucket purity: every entity of a bucket carries the bucket's
key as its device id. -/
theorem groupByDevice_purity (es : List RegEntry) :
    ∀ k l, (k, l) ∈ groupByDevice es → ∀ e ∈ l, e.device_id = k := by
  suffices h : ∀ gs, (∀ k' l', (k', l') ∈ gs → ∀ x ∈ l', x.device_id = k') →
      ∀ k l, (k, l) ∈ es.foldl (fun gs e => insertGroup e.device_id e gs) gs →
        ∀ e ∈ l, e.device_id = k by
    exact h [] (by simp)
  induction es with
  | nil => intro gs hgs; simpa using hgs
  | cons e tl ih =>
    intro gs hgs
    rw [List.foldl_cons]
    exact ih _ (insertGroup_purity rfl hgs)

theorem keysOf_insertGroup (k : Option String) (e : RegEntry)
    (gs : List (Option String × List RegEntry)) :
    keysOf (insertGroup k e gs) =
      if k ∈ keysOf gs then keysOf gs else keysOf gs ++ [k] := by
  induction gs with
  | nil => simp [insertGroup, keysOf]
  | cons hd tl ih =>
    obtain ⟨k0, l0⟩ := hd
    by_cases h : k0 = k
    · subst h
      simp [insertGroup, keysOf]
    · simp only [insertGroup, if_neg h, keysOf, List.map_cons] at ih ⊢
      rw [ih]
      by_cases h2 : k ∈ tl.map Prod.fst
      · simp [h2, List.mem_cons]
      · have hne : ¬(k = k0) := fun hk => h hk.symm
        simp [h2, List.mem_cons, hne]

theorem keysOf_nodup_insertGroup {k : Option String} {e : RegEntry}
    {gs : List (Option String × List RegEntry)} (h : (keysOf gs).Nodup) :
    (keysOf (insertGroup k e gs)).Nodup := by
  rw [keysOf_insertGroup]
  by_cases hk : k ∈ keysOf gs
  · simpa [hk] using h
  · rw [if_neg hk]
    refine h.append (List.nodup_singleton k) ?_
    intro a ha hb
    simp only [List.mem_singleton] at hb
    subst hb
    exact hk ha

/-- The bucket keys are pairwise distinct. -/
theorem groupByDevice_keys_nodup (es : List RegEntry) :
    (keysOf (groupByDevice es)).Nodup := by
  suffices h : ∀ gs, (keysOf gs).Nodup →
      (keysOf (es.foldl (fun gs e => insertGroup e.device_id e gs) gs)).Nodup by
    exact h [] (by simp [keysOf])
  induction es with
  | nil => intro gs hgs; simpa using hgs
  | cons e tl ih =>
    intro gs hgs
    rw [List.foldl_cons]
    exact ih _ (keysOf_nodup_insertGroup hgs)

/-! ## C3: grouping -/

/-- C3 counterexample: two entities with `device_id = None` do NOT
each get a single-entry bucket keyed by their entity id —
`_group_entities_by_device` collects them into one shared bucket
keyed `None`. -/
theorem grouping_null_shared_bucket :
    groupByDevice [nullEntityA, nullEntityB] = [(none, [nullEntityA, nullEntityB])] ∧
    ∃ kl ∈ groupByDevice [nullEntityA, nullEntityB],
      nullEntityA ∈ kl.2 ∧ nullEntityB ∈ kl.2 := by
  decide

/-- C3 (amended).  `_group_entities_by_device` is a partition keyed
by `device_id`: the buckets concatenate to a permutation of the input
(each entity is in exactly one bucket), bucket keys are pairwise
distinct, and every entity of a bucket carries the bucket's key as
its device id (so no bucket mixes two distinct device ids, and all
null-device entities share the single bucket keyed `None`).  The
discovery pass then processes the `None` bucket one entity at a time:
every plan it emits for that bucket names exactly one entity. -/
theorem grouping_partition :
    (∀ es : List RegEntry,
      (joinSnd (groupByDevice es)).Perm es ∧
      (keysOf (groupByDevice es)).Nodup ∧
      (∀ k l, (k, l) ∈ groupByDevice es → ∀ e ∈ l, e.device_id = k)) ∧
    (∀ (snap : Snapshot) (prov : List String) (es : List RegEntry) (p : Plan),
      p ∈ plansForGroup snap prov (none, es) →
        ∃ e ∈ es, planPowerIds p = [e.entity_id]) := by
  constructor
  · intro es
    exact ⟨joinSnd_groupByDevice es, groupByDevice_keys_nodup es,
      groupByDevice_purity es⟩
  · intro snap prov es p hp
    simp only [plansForGroup, List.mem_flatMap] at hp
    obtain ⟨e, he, hpe⟩ := hp
    refine ⟨e, he, ?_⟩
    rw [mem_initEntityDiscovery hpe]
    exact planPowerIds_mkEntityPlan snap e

theorem grouping_partition_witness :
    devEntityA.device_id = some "dev1" ∧
    ∃ e ∈ [devEntityA], planPowerIds (mkEntityPlan emptySnap devEntityA) = [e.entity_id] := by
  constructor
  · exact (grouping_partition.1 [devEntityA]).2.2 (some "dev1") [devEntityA]
      (by decide) devEntityA (by decide)
  · exact grouping_partition.2 emptySnap [] [devEntityA] (mkEntityPlan emptySnap devEntityA)
      (by decide)

/-! ## Selection lemmas -/

theorem mem_getPowerEntities {snap : Snapshot} {e : RegEntry}
    (h : e ∈ getPowerEntities snap) :
    e.disabled = false ∧ e.domain = "sensor" ∧
      ∃ st, getState snap e.entity_id = some st ∧ powerCond st = true := by
  unfold getPowerEntities at h
  obtain ⟨h1, hp⟩ := List.mem_filter.mp h
  obtain ⟨_, hdom⟩ := List.mem_filter.mp h1
  rw [Bool.and_eq_true] at hp
  obtain ⟨hskip, hstate⟩ := hp
  refine ⟨?_, by simpa using hdom, ?_⟩
  · rcases hd : e.disabled with _ | _
    · rfl
    · rw [hd] at hskip
      simp at hskip
  · cases hst : getState snap e.entity_id with
    | none => rw [hst] at hstate; exact absurd hstate (by simp)
    | some st => rw [hst] at hstate; exact ⟨st, rfl, hstate⟩

theorem mem_needingEnergy_power {snap : Snapshot} {e : RegEntry}
    (h : e ∈ needingEnergy snap) : e ∈ getPowerEntities snap :=
  List.mem_of_mem_filter h

theorem mem_joinSnd_of_bucket {gs : List (Option String × List RegEntry)}
    {k : Option String} {l : List RegEntry} {e : RegEntry}
    (hm : (k, l) ∈ gs) (he : e ∈ l) : e ∈ joinSnd gs := by
  induction gs with
  | nil => simp at hm
  | cons hd tl ih =>
    obtain ⟨k0, l0⟩ := hd
    simp only [joinSnd, List.mem_append]
    rcases List.mem_cons.mp hm with heq | hm'
    · left
      injection heq with hk hl
      rw [← hl]
      exact he
    · right
      exact ih hm'

/-- Every member of every device group is one of the selected
not-yet-matched power entities. -/
theorem mem_deviceGroups_needing {snap : Snapshot} {k : Option String}
    {l : List RegEntry} {e : RegEntry}
    (hm : (k, l) ∈ deviceGroups snap) (he : e ∈ l) : e ∈ needingEnergy snap :=
  (joinSnd_groupByDevice (needingEnergy snap)).mem_iff.mp
    (mem_joinSnd_of_bucket hm he)

/-! ## Classifier lemmas -/

theorem powerCond_fields (st : StateObj) :
    powerCond ⟨"", st.unit_of_measurement, st.device_class⟩ = powerCond st := by
  cases st
  rfl

theorem energyCond_fields (st : StateObj) :
    energyCond ⟨"", st.unit_of_measurement, st.device_class⟩ = energyCond st := by
  cases st
  rfl

theorem classify_of_powerCond {st : StateObj} (h : powerCond st = true) :
    classify st.unit_of_measurement st.device_class = .Power := by
  rw [classify, powerCond_fields, h]
  rfl

theorem isPowerUnit_iff (u : Option String) :
    isPowerUnit u = true ↔ u = some "W" := by
  cases u with
  | none => simp [isPowerUnit]
  | some s => simp [isPowerUnit, POWER_WATT]

theorem isEnergyUnit_iff (u : Option String) :
    isEnergyUnit u = true ↔ u = some "kWh" ∨ u = some "Wh" := by
  cases u with
  | none => simp [isEnergyUnit]
  | some s =>
    simp only [isEnergyUnit, ENERGY_KILO_WATT_HOUR, ENERGY_WATT_HOUR,
      List.mem_cons, List.not_mem_nil, or_false, decide_eq_true_eq,
      Option.some.injEq]
    constructor
    · rintro (h | h | h | h) <;> simp [h]
    · rintro (h | h) <;> simp [h]

theorem energy_not_power {u : Option String} (h : isEnergyUnit u = true) :
    isPowerUnit u = false := by
  rcases (isEnergyUnit_iff u).mp h with h' | h' <;>
    · subst h'
      decide

/-! ## C8: disabled exclusion -/

/-- C8.  Disabled entities are excluded from the power-entity
selection; every member of every device group is an enabled selected
power entity whose state classifies as Power; and every entity id
named by any emitted plan is the id of a selected, non-disabled power
entity. -/
theorem disabled_exclusion (snap : Snapshot) (prov : List String) :
    (∀ e ∈ getPowerEntities snap, e.disabled = false ∧
       ∃ st, getState snap e.entity_id = some st ∧
         classify st.unit_of_measurement st.device_class = .Power) ∧
    (∀ k l, (k, l) ∈ deviceGroups snap → ∀ e ∈ l,
       e.disabled = false ∧ e ∈ getPowerEntities snap ∧
       ∃ st, getState snap e.entity_id = some st ∧
         classify st.unit_of_measurement st.device_class = .Power) ∧
    (∀ p ∈ buildPlans snap prov, ∀ eid ∈ planPowerIds p,
       ∃ e, e ∈ getPowerEntities snap ∧ e.entity_id = eid ∧ e.disabled = false) := by
  have hsel : ∀ e ∈ getPowerEntities snap, e.disabled = false ∧
      ∃ st, getState snap e.entity_id = some st ∧
        classify st.unit_of_measurement st.device_class = .Power := by
    intro e he
    obtain ⟨hdis, _, st, hst, hcond⟩ := mem_getPowerEntities he
    exact ⟨hdis, st, hst, classify_of_powerCond hcond⟩
  have hgrp : ∀ k l, (k, l) ∈ deviceGroups snap → ∀ e ∈ l,
      e.disabled = false ∧ e ∈ getPowerEntities snap ∧
      ∃ st, getState snap e.entity_id = some st ∧
        classify st.unit_of_measurement st.device_class = .Power := by
    intro k l hm e he
    have hp := mem_needingEnergy_power (mem_deviceGroups_needing hm he)
    exact ⟨(hsel e hp).1, hp, (hsel e hp).2⟩
  refine ⟨hsel, hgrp, ?_⟩
  intro p hp eid hid
  obtain ⟨⟨k, es⟩, hg, hpg⟩ := mem_buildPlans.mp hp
  cases k with
  | none =>
    simp only [plansForGroup, List.mem_flatMap] at hpg
    obtain ⟨e, he, hpe⟩ := hpg
    rw [mem_initEntityDiscovery hpe, planPowerIds_mkEntityPlan] at hid
    simp only [List.mem_singleton] at hid
    obtain ⟨hdis, hpow, _⟩ := hgrp none es hg e he
    exact ⟨e, hpow, hid.symm, hdis⟩
  | some d =>
    obtain ⟨primary, rest, hes, hpd⟩ := mem_initDeviceDiscovery hpg
    rw [hpd, planPowerIds_mkDevicePlan, List.mem_map] at hid
    obtain ⟨e, he, heid⟩ := hid
    rw [← hes] at he
    obtain ⟨hdis, hpow, _⟩ := hgrp (some d) es hg e he
    exact ⟨e, hpow, heid, hdis⟩

/-- Witness for C8 at a concrete snapshot: an enabled watt sensor on
`dev1` is selected, and the single emitted plan names it. -/
theorem disabled_exclusion_witness :
    ∃ e, e ∈ getPowerEntities
        ⟨[devEntityA], [⟨"sensor.strip_outlet_1_power", some "W", some "power"⟩], [], []⟩ ∧
      e.entity_id = "sensor.strip_outlet_1_power" ∧ e.disabled = false := by
  refine (disabled_exclusion
    ⟨[devEntityA], [⟨"sensor.strip_outlet_1_power", some "W", some "power"⟩], [], []⟩
    []).2.2 (mkDevicePlan
      ⟨[devEntityA], [⟨"sensor.strip_outlet_1_power", some "W", some "power"⟩], [], []⟩
      devEntityA []) ?_ "sensor.strip_outlet_1_power" ?_
  · decide
  · decide

/-! ## C4: the asymmetric classifier rule -/

/-- C4.  An entity classifies as Power iff its unit is in the
power-unit list and its device_class is `"power"` or absent, and as
Energy iff its unit is in the energy-unit list and its device_class
is `"energy"` or absent; any other explicit device_class disqualifies
the entity even when the unit matches, while an absent device_class
is accepted. -/
theorem classifier_rule (u dc : Option String) :
    (classify u dc = .Power ↔
      isPowerUnit u = true ∧ (dc = some "power" ∨ dc = none)) ∧
    (classify u dc = .Energy ↔
      isEnergyUnit u = true ∧ (dc = some "energy" ∨ dc = none)) ∧
    (∀ tag : String, dc = some tag → tag ≠ "power" → classify u dc ≠ .Power) ∧
    (∀ tag : String, dc = some tag → tag ≠ "energy" → classify u dc ≠ .Energy) := by
  have hP : powerCond ⟨"", u, dc⟩ = true ↔
      isPowerUnit u = true ∧ (dc = some "power" ∨ dc = none) := by
    simp [powerCond, Bool.and_eq_true, Bool.or_eq_true, decide_eq_true_eq]
  have hE : energyCond ⟨"", u, dc⟩ = true ↔
      isEnergyUnit u = true ∧ (dc = some "energy" ∨ dc = none) := by
    simp [energyCond, Bool.and_eq_true, Bool.or_eq_true, decide_eq_true_eq]
  have hPower : classify u dc = .Power ↔ powerCond ⟨"", u, dc⟩ = true := by
    unfold classify
    by_cases h : powerCond ⟨"", u, dc⟩ = true
    · simp [h]
    · by_cases h2 : energyCond ⟨"", u, dc⟩ = true <;> simp [h, h2]
  have hEnergy : classify u dc = .Energy ↔ energyCond ⟨"", u, dc⟩ = true := by
    unfold classify
    by_cases h2 : energyCond ⟨"", u, dc⟩ = true
    · have hpf : powerCond ⟨"", u, dc⟩ = false := by
        have hu := energy_not_power (hE.mp h2).1
        simp [powerCond, hu]
      simp [hpf, h2]
    · by_cases h : powerCond ⟨"", u, dc⟩ = true <;> simp [h, h2]
  refine ⟨hPower.trans hP, hEnergy.trans hE, ?_, ?_⟩
  · rintro tag rfl hne hcl
    rcases ((hPower.trans hP).mp hcl).2 with hdc | hdc
    · exact hne (by injection hdc)
    · exact Option.noConfusion hdc
  · rintro tag rfl hne hcl
    rcases ((hEnergy.trans hE).mp hcl).2 with hdc | hdc
    · exact hne (by injection hdc)
    · exact Option.noConfusion hdc

theorem classifier_rule_witness :
    classify (some "W") (some "humidity") ≠ .Power ∧
    classify (some "kWh") (some "humidity") ≠ .Energy :=
  ⟨(classifier_rule (some "W") (some "humidity")).2.2.1 "humidity" rfl (by decide),
   (classifier_rule (some "kWh") (some "humidity")).2.2.2 "humidity" rfl (by decide)⟩

/-! ## C2: the matcher does not fall back for device-attached entities -/

/-- C2 counterexample: a power entity with a non-null device id, no
qualifying energy co-member on the device, but an existing qualifying
name-pattern energy sibling — `_has_energy_entity` returns `false`,
not `true`: the name-pattern test is never reached. -/
theorem matcher_no_fallback_counterexample :
    ppOnDevice.device_id = some "dev1" ∧
    (entriesForDevice snapDeviceNoFallback "dev1").any
      (deviceEnergyCheck snapDeviceNoFallback) = false ∧
    hasEnergyEntityByName snapDeviceNoFallback ppOnDevice = true ∧
    hasEnergyEntity snapDeviceNoFallback ppOnDevice = false := by
  decide

/-- C2 (amended).  The matcher has no ordered fallback: the
name-pattern test is used only when the power entity's device id is
falsy.  For a power entity with a truthy device id whose device has
no qualifying energy co-member, `_has_energy_entity` answers `false`
even when a qualifying name-pattern energy sibling exists. -/
theorem matcher_device_no_fallback (snap : Snapshot) (p : RegEntry) (d : String)
    (hd : p.device_id = some d) (ht : isTruthy p.device_id = true)
    (hco : (entriesForDevice snap d).any (deviceEnergyCheck snap) = false)
    (hname : hasEnergyEntityByName snap p = true) :
    hasEnergyEntity snap p = false := by
  unfold hasEnergyEntity
  rw [ht, hd]
  simpa using hco

theorem matcher_device_no_fallback_witness :
    isTruthy ppOnDevice.device_id = true ∧
    hasEnergyEntityByName snapDeviceNoFallback ppOnDevice = true ∧
    hasEnergyEntity snapDeviceNoFallback ppOnDevice = false :=
  ⟨by decide, by decide,
   matcher_device_no_fallback snapDeviceNoFallback ppOnDevice "dev1"
     (by decide) (by decide) (by decide) (by decide)⟩

/-! ## C5: name-pattern positive case -/

/-- C5.  For `sensor.plug_power` with no device id and a registered
`sensor.plug_energy` with a present state of unit `"kWh"`, the
matcher answers `true`; and candidate generation on the local name
`plug_power` produces exactly the six substitution forms in source
order. -/
theorem name_pattern_positive :
    localName plugPowerNoDev = "plug_power" ∧
    hasEnergyEntity plugSnap plugPowerNoDev = true ∧
    energyPatterns "plug_power" =
      ["plug_energy", "plug_total_energy", "plug_energy", "plug_total_energy",
       "plug_power_energy", "plug_power_total_energy"] := by
  decide

/-! ## C6: the name-pattern fallback checks only the unit -/

/-- C6 counterexample: the only available candidate classifies as
Other (unit `"kWh"`, device_class `"humidity"`), yet the name-pattern
fallback — and hence the whole matcher — reports a match on account
of it: the fallback never consults the candidate's device_class. -/
theorem name_fallback_ignores_device_class :
    classify (some "kWh") (some "humidity") = .Other ∧
    hasEnergyEntityByName humidEnergySnap plugPowerNoDev = true ∧
    hasEnergyEntity humidEnergySnap plugPowerNoDev = true := by
  decide

theorem namePatternHit_iff (snap : Snapshot) (pat : String) :
    namePatternHit snap pat = true ↔
      (registryGet snap ("sensor." ++ pat)).isSome = true ∧
      ∃ st, getState snap ("sensor." ++ pat) = some st ∧
        isEnergyUnit st.unit_of_measurement = true := by
  unfold namePatternHit
  cases hr : registryGet snap ("sensor." ++ pat) with
  | none => simp [hr]
  | some e =>
    cases hs : getState snap ("sensor." ++ pat) with
    | none => simp [hs]
    | some st => simp [hs]

/-- C6 (amended).  The name-pattern fallback reports a match iff some
candidate name is registered and has a present state whose unit is in
the energy-unit list — the candidate's device_class (and hence its
classification as Energy) is not consulted. -/
theorem name_fallback_unit_only (snap : Snapshot) (p : RegEntry) :
    hasEnergyEntityByName snap p = true ↔
      ∃ pat ∈ energyPatterns (localName p),
        (registryGet snap ("sensor." ++ pat)).isSome = true ∧
        ∃ st, getState snap ("sensor." ++ pat) = some st ∧
          isEnergyUnit st.unit_of_measurement = true := by
  rw [hasEnergyEntityByName, List.any_eq_true]
  constructor
  · rintro ⟨pat, hmem, hhit⟩
    exact ⟨pat, hmem, (namePatternHit_iff snap pat).mp hhit⟩
  · rintro ⟨pat, hmem, hcond⟩
    exact ⟨pat, hmem, (namePatternHit_iff snap pat).mpr hcond⟩

/-! ## C7: multi-outlet grouping -/

/-- C7.  When the pass's not-yet-matched power entities are exactly
two entities sharing one device id and that device's dedup key is not
yet provisioned, the pass emits exactly one plan, and that plan's
`power_entity_ids` lists both entity ids. -/
theorem multi_outlet_single_plan (snap : Snapshot) (prov : List String)
    (e1 e2 : RegEntry) (d : String)
    (hneed : needingEnergy snap = [e1, e2])
    (h1 : e1.device_id = some d) (h2 : e2.device_id = some d)
    (hprov : deviceGroupKey e1 ∉ prov) :
    ∃ p, buildPlans snap prov = [p] ∧
      p.power_entity_ids = some [e1.entity_id, e2.entity_id] := by
  have hgroups : deviceGroups snap = [(some d, [e1, e2])] := by
    unfold deviceGroups groupByDevice
    rw [hneed]
    simp [insertGroup, h1, h2]
  refine ⟨mkDevicePlan snap e1 [e2], ?_, rfl⟩
  rw [buildPlans, hgroups]
  simp [plansForGroup, initDeviceDiscovery, hprov]

theorem multi_outlet_single_plan_witness :
    ∃ p, buildPlans stripSnap [] = [p] ∧
      p.power_entity_ids =
        some [devEntityA.entity_id, devEntityB.entity_id] :=
  multi_outlet_single_plan stripSnap [] devEntityA devEntityB "dev1"
    (by decide) (by decide) (by decide) (by decide)

/-! ## C9: display-name precedence -/

theorem pyOr_chain_firstNonEmpty (a b : Option String) (d : String) :
    (pyOr (pyOr a b) (some d)).getD "" = firstNonEmpty [a, b] d := by
  by_cases h1 : isTruthy a = true
  · simp [pyOr, h1, firstNonEmpty]
  · rw [Bool.not_eq_true] at h1
    by_cases h2 : isTruthy b = true
    · simp [pyOr, h1, h2, firstNonEmpty]
    · rw [Bool.not_eq_true] at h2
      simp [pyOr, h1, h2, firstNonEmpty]

/-- C9.  The display name `_init_device_discovery` resolves for a
device group is the first non-empty of: the device's user-set name,
the device's name, the primary entity's name, the primary entity's
original name — defaulting to the entity id with the `sensor.` prefix
stripped, underscores turned into spaces, and title-cased.  In
particular a non-empty device name wins over the entity names and
over the id-derived name. -/
theorem display_name_precedence (dEntry : Option DeviceEntry) (primary : RegEntry) :
    resolveDeviceGroupName dEntry primary =
      firstNonEmpty
        [dEntry.bind (·.name_by_user), dEntry.bind (·.name),
         primary.name, primary.original_name]
        (titleizeEntityId primary.entity_id) := by
  cases dEntry with
  | none =>
    show (pyOr (pyOr primary.name primary.original_name) _).getD "" = _
    rw [pyOr_chain_firstNonEmpty]
    simp [firstNonEmpty, isTruthy, Option.bind]
  | some de =>
    simp only [resolveDeviceGroupName, Option.bind]
    by_cases h1 : isTruthy (pyOr de.name_by_user de.name) = true
    · rw [if_pos h1]
      by_cases h2 : isTruthy de.name_by_user = true
      · simp [pyOr, h2, firstNonEmpty]
      · have h3 : isTruthy de.name = true := by
          simpa [pyOr, h2] using h1
        simp [pyOr, h2, h3, firstNonEmpty]
    · rw [if_neg h1]
      have h2 : isTruthy de.name_by_user = false := by
        by_contra hc
        simp only [Bool.not_eq_false] at hc
        exact h1 (by simp [pyOr, hc])
      have h3 : isTruthy de.name = false := by
        by_contra hc
        simp only [Bool.not_eq_false] at hc
        exact h1 (by simp [pyOr, h2, hc])
      rw [pyOr_chain_firstNonEmpty]
      simp [firstNonEmpty, h2, h3]

/-! ## C10: substitution semantics on repeated occurrences -/

/-- C10 counterexample: for local name `power_strip_power` the
candidate set DOES contain `power_strip_energy` — the first
substitution's pattern `_power` matches only the underscore-preceded
occurrence, leaving the leading `power` intact. -/
theorem candidate_preserves_leading_power :
    "power_strip_energy" ∈ energyPatterns "power_strip_power" := by
  decide

/-- C10 (amended).  Each substitution replaces every occurrence of
its own pattern throughout the name — `power`→`energy` on
`power_strip_power` yields `energy_strip_energy`, never only the
suffix — but the `_power`-anchored substitutions rewrite only
underscore-preceded occurrences, so the candidate set for
`power_strip_power` is exactly the six names below and in particular
contains `power_strip_energy` alongside `energy_strip_energy`. -/
theorem replace_all_semantics :
    pyReplace "power_strip_power" "power" "energy" = "energy_strip_energy" ∧
    pyReplace "power_strip_power" "_power" "_energy" = "power_strip_energy" ∧
    energyPatterns "power_strip_power" =
      ["power_strip_energy", "power_strip_total_energy", "energy_strip_energy",
       "total_energy_strip_total_energy", "power_strip_power_energy",
       "power_strip_power_total_energy"] := by
  decide

end EnergyCalc
